import Mathlib

/-!
Verification of the GeoExplorer game (client logic in `script.js` and the
Mapillary serverless proxy) against its natural-language specification.

The client-side numeric code (`haversineDistance`, `calculateScore`, the
game-state handlers) is embedded over the real numbers; the serverless
function (query validation, provider-response shaping) is embedded as a
computable function over rationals and strings.
-/

namespace GeoExplorer

open Real

/-- JavaScript `Math.atan2 y x`: angle of the point `(x, y)`,
in `(-pi, pi]`, with `atan2 0 0 = 0`. -/
noncomputable def atan2 (y x : ℝ) : ℝ :=
  if 0 < x then Real.arctan (y / x)
  else if x < 0 then
    (if 0 ≤ y then Real.arctan (y / x) + Real.pi else Real.arctan (y / x) - Real.pi)
  else
    (if 0 < y then Real.pi / 2 else if y < 0 then -(Real.pi / 2) else 0)

/-- `haversineDistance(coords1, coords2)` from `script.js`.  Coordinates are
`[latitude, longitude]` pairs in degrees; the result is in kilometres.

The source declares `const lon1 = coords1[1];` twice in a row; the embedding
keeps both bindings as a shadowing `let` (they bind the same value, so the
formula is unaffected), but in JavaScript a repeated `const` in one scope is
a `SyntaxError`, so the script as shipped fails to parse.  See claim C3. -/
noncomputable def haversineDistance (coords1 coords2 : ℝ × ℝ) : ℝ :=
  let R : ℝ := 6371
  let lat1 := coords1.1
  let lon1 := coords1.2
  let lon1 := coords1.2
  let lat2 := coords2.1
  let lon2 := coords2.2
  let dLat := (lat2 - lat1) * (Real.pi / 180)
  let dLon := (lon2 - lon1) * (Real.pi / 180)
  let rLat1 := lat1 * (Real.pi / 180)
  let rLat2 := lat2 * (Real.pi / 180)
  let a := Real.sin (dLat / 2) * Real.sin (dLat / 2) +
           Real.cos rLat1 * Real.cos rLat2 *
           Real.sin (dLon / 2) * Real.sin (dLon / 2)
  let c := 2 * atan2 (Real.sqrt a) (Real.sqrt (1 - a))
  R * c

/-- `calculateScore(distanceKm)` from `script.js`.  JavaScript
`Math.round` rounds half up, i.e. `Math.round x = ⌊x + 1/2⌋`, which is
Mathlib's `round`; `Math.max(0, ·)` is `max 0 ·`. -/
noncomputable def calculateScore (distanceKm : ℝ) : ℤ :=
  if distanceKm < 0.25 then 5000
  else if distanceKm > 2000 then 0
  else max 0 (round (5000 - distanceKm * 2.5))

/-- The spec's piecewise description of the score (claim C2), written from
the spec's words, to be compared with `calculateScore`. -/
noncomputable def scoreSpec (distanceKm : ℝ) : ℤ :=
  if distanceKm < 0.25 then 5000
  else if distanceKm > 2000 then 0
  else max 0 (round (5000 - distanceKm * 2.5))

/-- The spec's formula for the great-circle distance (claim C3): `R * c`
with `R = 6371`, `a = sin²(dLat/2) + cos lat1 * cos lat2 * sin²(dLon/2)`
and `c = 2 * atan2 (sqrt a) (sqrt (1 - a))`, every angle converted from
degrees to radians before use. -/
noncomputable def haversineSpec (coords1 coords2 : ℝ × ℝ) : ℝ :=
  let R : ℝ := 6371
  let lat1 := coords1.1 * (Real.pi / 180)
  let lat2 := coords2.1 * (Real.pi / 180)
  let dLat := (coords2.1 - coords1.1) * (Real.pi / 180)
  let dLon := (coords2.2 - coords1.2) * (Real.pi / 180)
  let a := Real.sin (dLat / 2) ^ 2 + Real.cos lat1 * Real.cos lat2 * Real.sin (dLon / 2) ^ 2
  let c := 2 * atan2 (Real.sqrt a) (Real.sqrt (1 - a))
  R * c

/-- The predefined `locations` list of `script.js`: name, latitude,
longitude. -/
def locations : List (String × ℝ × ℝ) :=
  [("New York City", 40.7128, -74.0060),
   ("London", 51.5074, -0.1278),
   ("Tokyo", 35.6895, 139.6917),
   ("Sydney", -33.8688, 151.2093),
   ("Paris", 48.8566, 2.3522)]

/-- `currentLocationData` as stored by `fetchImageForLocation` on a
successful API response: `coordinates` is the Mapillary `[lon, lat]` pair
(`none` models a falsy value). -/
structure LocationData where
  name : String
  imageId : String
  coordinates : Option (ℝ × ℝ)
  compassAngle : Option ℝ

/-- The mutable state of the client game: the `script.js` globals together
with the UI flags the handlers read and write.  `roundScores` is a ghost
list recording each round score as it is added to `totalScore` (the spec's
RoundResult records). -/
structure GameState where
  currentRound : ℕ
  totalScore : ℤ
  currentLocationData : Option LocationData
  guessMarker : Option (ℝ × ℝ)
  actualLocationMarker : Option (ℝ × ℝ)
  resultPolyline : Option ((ℝ × ℝ) × (ℝ × ℝ))
  mapClicksEnabled : Bool
  submitBtnDisabled : Bool
  submitBtnVisible : Bool
  nextBtnVisible : Bool
  playAgainVisible : Bool
  roundScores : List ℤ

/-- `loadNewRound()`: if all locations have been played, switch the UI to
the game-over configuration; otherwise clear the previous round's map
elements and reset the round UI (the image fetch itself is asynchronous and
modelled as a separate `Step.fetch` event). -/
def loadNewRound (s : GameState) : GameState :=
  if locations.length ≤ s.currentRound then
    { s with submitBtnVisible := false, nextBtnVisible := false,
             playAgainVisible := true, mapClicksEnabled := false }
  else
    { s with guessMarker := none, actualLocationMarker := none, resultPolyline := none,
             mapClicksEnabled := true, submitBtnDisabled := true,
             submitBtnVisible := true, nextBtnVisible := false }

/-- The "Next Round" click handler: `currentRound++; loadNewRound();`. -/
def advance (s : GameState) : GameState :=
  loadNewRound { s with currentRound := s.currentRound + 1 }

/-- The map click handler: ignored when `mapClicksEnabled` is false,
otherwise it (re)places the guess marker and enables the submit button. -/
def mapClick (s : GameState) (p : ℝ × ℝ) : GameState :=
  if s.mapClicksEnabled then
    { s with guessMarker := some p, submitBtnDisabled := false }
  else s

/-- A successful `fetchImageForLocation` response storing
`currentLocationData`. -/
def applyFetch (s : GameState) (d : LocationData) : GameState :=
  { s with currentLocationData := some d }

/-- The "Submit Guess" click handler of `script.js`.  With no guess marker
it only shows an alert and returns; otherwise it disables further input,
reorders the stored Mapillary `[lon, lat]` pair to `[lat, lon]`, computes
the Haversine distance and the round score, and adds the score to
`totalScore`. -/
noncomputable def submitGuess (s : GameState) : GameState :=
  match s.guessMarker with
  | none => s
  | some guessedLatLng =>
    let s1 := { s with submitBtnDisabled := true, mapClicksEnabled := false }
    match s.currentLocationData with
    | none => { s1 with submitBtnVisible := false, nextBtnVisible := true }
    | some locData =>
      match locData.coordinates with
      | none => { s1 with submitBtnVisible := false, nextBtnVisible := true }
      | some coords =>
        let actualLatLng := (coords.2, coords.1)
        let distance := haversineDistance (guessedLatLng.1, guessedLatLng.2) actualLatLng
        let scoreForRound := calculateScore distance
        { s1 with totalScore := s1.totalScore + scoreForRound,
                  roundScores := s1.roundScores ++ [scoreForRound],
                  actualLocationMarker := some actualLatLng,
                  resultPolyline := some (guessedLatLng, actualLatLng),
                  submitBtnVisible := false, nextBtnVisible := true }

/-- The state set up by the `DOMContentLoaded` handler: zero score, round 0,
submit disabled, then `loadNewRound()`. -/
def initState : GameState :=
  loadNewRound
    { currentRound := 0, totalScore := 0, currentLocationData := none,
      guessMarker := none, actualLocationMarker := none, resultPolyline := none,
      mapClicksEnabled := true, submitBtnDisabled := true,
      submitBtnVisible := true, nextBtnVisible := false,
      playAgainVisible := false, roundScores := [] }

/-- A concrete mid-round state used to exercise the submit handler: a guess
placed at `(1, 2)` and stored provider coordinates `[lon, lat] = (3, 4)`. -/
def sampleSubmitState : GameState :=
  { initState with
    guessMarker := some ((1 : ℝ), (2 : ℝ)),
    currentLocationData := some ⟨"Test", "img", some ((3 : ℝ), (4 : ℝ)), none⟩ }

/-- One user-visible event within a game (the "Play Again" reset starts a
new game and is outside a single game's progression). -/
inductive Step : GameState → GameState → Prop
  | click (s : GameState) (p : ℝ × ℝ) : Step s (mapClick s p)
  | fetch (s : GameState) (d : LocationData) : Step s (applyFetch s d)
  | submit (s : GameState) : Step s (submitGuess s)
  | next (s : GameState) : Step s (advance s)

/-- States reachable within one game from the freshly loaded game. -/
inductive Reachable : GameState → Prop
  | init : Reachable initState
  | step {s s' : GameState} : Reachable s → Step s s' → Reachable s'

/-- The game-over configuration `loadNewRound` enters once every location
has been used: all rounds consumed, "Play Again" shown, map clicks off. -/
def isGameOver (s : GameState) : Prop :=
  locations.length ≤ s.currentRound ∧ s.playAgainVisible = true ∧ s.mapClicksEnabled = false

end GeoExplorer

namespace Api

/-- JavaScript truthiness of an optional string: `undefined` (here `none`)
and the empty string are the falsy cases. -/
def jsFalsyStr : Option String → Bool
  | none => true
  | some s => s.isEmpty

/-- A JavaScript number as produced by `parseFloat`: a finite (exact)
value, an infinity, or `NaN`. -/
inductive JSNumber where
  | finite (q : ℚ)
  | posInf
  | negInf
  | nan
  deriving DecidableEq, Repr

/-- JavaScript `isNaN` on a parsed number. -/
def JSNumber.isNaN : JSNumber → Bool
  | .nan => true
  | _ => false

/-- Value of a list of decimal digit characters. -/
def digitsToNat (ds : List Char) : ℕ :=
  ds.foldl (fun n c => 10 * n + (c.toNat - 48)) 0

/-- Longest unsigned decimal-literal prefix of a character list, per the
`StrUnsignedDecimalLiteral` grammar used by `parseFloat`: digits, an
optional fraction, and an optional exponent (the exponent marker is only
consumed when digits follow it).  Returns the exact value and the rest of
the input, or `none` when no digit occurs before the exponent position. -/
def parseUnsigned (cs : List Char) : Option (ℚ × List Char) :=
  let intPart := cs.takeWhile Char.isDigit
  let rest1 := cs.dropWhile Char.isDigit
  let fracPart :=
    match rest1 with
    | '.' :: t => t.takeWhile Char.isDigit
    | _ => []
  let rest2 :=
    match rest1 with
    | '.' :: t => t.dropWhile Char.isDigit
    | _ => rest1
  if intPart.isEmpty && fracPart.isEmpty then none
  else
    let mantissa : ℚ :=
      (digitsToNat intPart : ℚ) + (digitsToNat fracPart : ℚ) / (10 : ℚ) ^ fracPart.length
    let expAndRest : ℤ × List Char :=
      match rest2 with
      | 'e' :: t | 'E' :: t =>
        let signAndRest : ℤ × List Char :=
          match t with
          | '+' :: u => (1, u)
          | '-' :: u => (-1, u)
          | _ => (1, t)
        let eDigits := signAndRest.2.takeWhile Char.isDigit
        if eDigits.isEmpty then (0, rest2)
        else (signAndRest.1 * (digitsToNat eDigits : ℤ), signAndRest.2.dropWhile Char.isDigit)
      | _ => (0, rest2)
    some (mantissa * (10 : ℚ) ^ expAndRest.1, expAndRest.2)

/-- JavaScript `parseFloat`: trim leading whitespace, read an optional
sign, then either the literal `Infinity` or the longest decimal-literal
prefix; `NaN` when no prefix parses. -/
def parseFloat (s : String) : JSNumber :=
  let cs := s.data.dropWhile Char.isWhitespace
  let signAndRest : Bool × List Char :=
    match cs with
    | '-' :: t => (true, t)
    | '+' :: t => (false, t)
    | _ => (false, cs)
  if "Infinity".data.isPrefixOf signAndRest.2 then
    (if signAndRest.1 then JSNumber.negInf else JSNumber.posInf)
  else
    match parseUnsigned signAndRest.2 with
    | none => JSNumber.nan
    | some (q, _) => JSNumber.finite (if signAndRest.1 then -q else q)

/-- A request to `/api/getMapillaryImage`: the `lat` and `lon` query
parameters and the `MAPILLARY_ACCESS_TOKEN` environment variable (`none`
models an absent parameter or variable). -/
structure ApiRequest where
  queryLat : Option String
  queryLon : Option String
  envAccessToken : Option String
  deriving DecidableEq, Repr

/-- Body of a response of the serverless function: either `{ error }` or
the success payload `{ imageId, imageUrl, coordinates, compassAngle }`
(`imageUrl = none` models the key being absent from the JSON,
`coordinates = none` models `null`). -/
inductive ResponseBody where
  | errorMsg (msg : String)
  | success (imageId : String) (imageUrl : Option String)
      (coordinates : Option (ℚ × ℚ)) (compassAngle : Option ℚ)
  deriving DecidableEq, Repr

/-- An HTTP response of the serverless function. -/
structure ApiResponse where
  status : ℕ
  body : ResponseBody
  deriving DecidableEq, Repr

/-- One image record of the Mapillary Graph API response, with the fields
the function requests; `computed_geometry` carries the GeoJSON
`[longitude, latitude]` coordinates when present. -/
structure MapillaryImage where
  id : String
  thumb_1024_url : Option String
  thumb_original_url : Option String
  computed_geometry : Option (ℚ × ℚ)
  compass_angle : Option ℚ
  deriving DecidableEq, Repr

/-- Outcome of the `fetch` to the Mapillary API: a non-ok HTTP response
(with its status and the parsed `{ error }` message when one parses), an
ok response carrying the optional `data` array, or a thrown error. -/
inductive ProviderResult where
  | httpError (status : ℕ) (errBody : Option String)
  | ok (data : Option (List MapillaryImage))
  | networkFailure
  deriving DecidableEq, Repr

/-- JavaScript `a || b` on the two thumbnail URL fields: the first operand
unless it is falsy (`undefined` or the empty string). -/
def jsOrStr (a b : Option String) : Option String :=
  if jsFalsyStr a then b else a

/-- The checks the function runs before calling the provider, in source
order: the access-token check (500), the presence check on `lat`/`lon`
(400), then `parseFloat` + `isNaN` validation (400).  `Except.ok` carries
the parsed `(latNum, lonNum)` and means execution reaches the Mapillary
fetch; `Except.error` is an early response sent without any provider
call. -/
def validateRequest (req : ApiRequest) : Except ApiResponse (JSNumber × JSNumber) :=
  if jsFalsyStr req.envAccessToken then
    .error ⟨500, .errorMsg "Mapillary access token not configured."⟩
  else if jsFalsyStr req.queryLat || jsFalsyStr req.queryLon then
    .error ⟨400, .errorMsg "Latitude and longitude are required."⟩
  else
    let latNum := parseFloat ((req.queryLat).getD "")
    let lonNum := parseFloat ((req.queryLon).getD "")
    if latNum.isNaN || lonNum.isNaN then
      .error ⟨400, .errorMsg "Invalid latitude or longitude values."⟩
    else
      .ok (latNum, lonNum)

/-- The whole serverless function, with the provider's behaviour supplied
as an argument: validation first, then the response shaping of
`module.exports` (non-ok provider status forwarded with 502 for a falsy
status, 404 when `data` is missing or empty, 200 with
`imageUrl = thumb_original_url || thumb_1024_url` and
`coordinates = computed_geometry ? … : null` otherwise, 500 on a thrown
error). -/
def endpoint (req : ApiRequest) (provider : ProviderResult) : ApiResponse :=
  match validateRequest req with
  | .error resp => resp
  | .ok _ =>
    match provider with
    | .httpError status errBody =>
      ⟨if status = 0 then 502 else status,
       .errorMsg (errBody.getD ("Failed to fetch image from Mapillary. Status: " ++ toString status))⟩
    | .networkFailure => ⟨500, .errorMsg "Server error while fetching image from Mapillary."⟩
    | .ok data =>
      match data with
      | some (image :: _) =>
        ⟨200, .success image.id (jsOrStr image.thumb_original_url image.thumb_1024_url)
              image.computed_geometry image.compass_angle⟩
      | _ => ⟨404, .errorMsg "No panoramic images found for this location."⟩

end Api

namespace GeoExplorer

lemma calculateScore_nonneg (d : ℝ) : 0 ≤ calculateScore d := by
  unfold calculateScore
  split
  · norm_num
  · split
    · norm_num
    · exact le_max_left 0 _

lemma round_le_of_lt (x : ℝ) (n : ℤ) (h : x + 1 / 2 < n + 1) : round x ≤ n := by
  rw [round_eq]
  have hf : ⌊x + 1 / 2⌋ < n + 1 := Int.floor_lt.mpr (by push_cast; linarith)
  omega

lemma round_eq_of_bounds (x : ℝ) (n : ℤ) (h1 : (n : ℝ) ≤ x + 1 / 2)
    (h2 : x + 1 / 2 < n + 1) : round x = n := by
  rw [round_eq]
  exact Int.floor_eq_iff.mpr ⟨by push_cast; linarith, by push_cast; linarith⟩

lemma calculateScore_le_5000 (d : ℝ) : calculateScore d ≤ 5000 := by
  unfold calculateScore
  split
  · norm_num
  · split
    · norm_num
    · rename_i h1 h2
      push_neg at h1
      refine max_le (by norm_num) (round_le_of_lt _ 5000 ?_)
      push_cast
      linarith

lemma calculateScore_quarter : calculateScore 0.25 = 4999 := by
  unfold calculateScore
  rw [if_neg (by norm_num), if_neg (by norm_num)]
  have harg : (5000 : ℝ) - 0.25 * 2.5 = 4999.375 := by norm_num
  rw [harg, round_eq_of_bounds 4999.375 4999 (by norm_num) (by norm_num)]
  norm_num

lemma calculateScore_1000 : calculateScore 1000 = 2500 := by
  unfold calculateScore
  rw [if_neg (by norm_num), if_neg (by norm_num)]
  have harg : (5000 : ℝ) - 1000 * 2.5 = 2500 := by norm_num
  rw [harg, round_eq_of_bounds 2500 2500 (by norm_num) (by norm_num)]
  norm_num

lemma calculateScore_2000_linear :
    calculateScore 2000 = max 0 (round ((5000 : ℝ) - 2000 * 2.5)) := by
  unfold calculateScore
  rw [if_neg (by norm_num), if_neg (by norm_num)]

lemma calculateScore_2000 : calculateScore 2000 = 0 := by
  rw [calculateScore_2000_linear]
  have harg : (5000 : ℝ) - 2000 * 2.5 = 0 := by norm_num
  rw [harg, round_zero]
  norm_num

lemma haversineDistance_eq_spec (c1 c2 : ℝ × ℝ) :
    haversineDistance c1 c2 = haversineSpec c1 c2 := by
  unfold haversineDistance haversineSpec
  ring_nf

lemma haversineDistance_same_point : haversineDistance (0, 0) (0, 0) = 0 := by
  simp [haversineDistance, atan2]

lemma haversineDistance_quarter_circle :
    haversineDistance (0, 0) (0, 90) = 6371 * (Real.pi / 2) := by
  have h1 : (90 : ℝ) * (Real.pi / 180) / 2 = Real.pi / 4 := by ring
  have ha : Real.sin ((90 : ℝ) * (Real.pi / 180) / 2) *
      Real.sin ((90 : ℝ) * (Real.pi / 180) / 2) = 1 / 2 := by
    rw [h1, Real.sin_pi_div_four, div_mul_div_comm,
      Real.mul_self_sqrt (by norm_num : (0 : ℝ) ≤ 2)]
    norm_num
  have hpos : (0 : ℝ) < Real.sqrt (1 / 2) := Real.sqrt_pos.mpr (by norm_num)
  have hdiv : Real.sqrt (1 / 2) / Real.sqrt (1 / 2) = 1 := div_self (ne_of_gt hpos)
  norm_num [haversineDistance, atan2, ha, hdiv, Real.arctan_one]
  ring

lemma locations_length : locations.length = 5 := rfl

lemma loadNewRound_currentRound (s : GameState) :
    (loadNewRound s).currentRound = s.currentRound := by
  unfold loadNewRound
  split <;> rfl

lemma loadNewRound_totalScore (s : GameState) :
    (loadNewRound s).totalScore = s.totalScore := by
  unfold loadNewRound
  split <;> rfl

lemma loadNewRound_roundScores (s : GameState) :
    (loadNewRound s).roundScores = s.roundScores := by
  unfold loadNewRound
  split <;> rfl

lemma advance_currentRound (s : GameState) :
    (advance s).currentRound = s.currentRound + 1 := by
  unfold advance
  rw [loadNewRound_currentRound]

lemma iterate_advance_currentRound (k : ℕ) (s : GameState) :
    (advance^[k] s).currentRound = s.currentRound + k := by
  induction k generalizing s with
  | zero => rfl
  | succ n ih =>
    rw [Function.iterate_succ_apply, ih, advance_currentRound]
    omega

lemma initState_currentRound : initState.currentRound = 0 := rfl

lemma submitGuess_score_cases (s : GameState) :
    (submitGuess s).totalScore = s.totalScore ∧ (submitGuess s).roundScores = s.roundScores ∧
      (submitGuess s).currentRound = s.currentRound ∨
    ∃ sc : ℤ, 0 ≤ sc ∧ (submitGuess s).totalScore = s.totalScore + sc ∧
      (submitGuess s).roundScores = s.roundScores ++ [sc] ∧
      (submitGuess s).currentRound = s.currentRound := by
  unfold submitGuess
  rcases hm : s.guessMarker with _ | g
  · exact Or.inl ⟨rfl, rfl, rfl⟩
  · rcases hd : s.currentLocationData with _ | locData
    · exact Or.inl ⟨rfl, rfl, rfl⟩
    · rcases hc : locData.coordinates with _ | coords
      · simp only [hc]
        exact Or.inl ⟨trivial, trivial, trivial⟩
      · simp only [hc]
        exact Or.inr ⟨calculateScore (haversineDistance (g.1, g.2) (coords.2, coords.1)),
          calculateScore_nonneg _, by simp, by simp, by simp⟩

lemma step_totalScore_mono {s s' : GameState} (h : Step s s') :
    s.totalScore ≤ s'.totalScore := by
  cases h with
  | click p =>
    unfold mapClick
    split <;> exact le_refl _
  | fetch d => exact le_refl _
  | submit =>
    rcases submitGuess_score_cases s with ⟨h1, _, _⟩ | ⟨sc, hsc, h1, _, _⟩
    · rw [h1]
    · rw [h1]
      omega
  | next =>
    unfold advance
    rw [loadNewRound_totalScore]

lemma step_sum_invariant {s s' : GameState} (h : Step s s')
    (hinv : s.totalScore = s.roundScores.sum) : s'.totalScore = s'.roundScores.sum := by
  cases h with
  | click p =>
    unfold mapClick
    split <;> exact hinv
  | fetch d => exact hinv
  | submit =>
    rcases submitGuess_score_cases s with ⟨h1, h2, _⟩ | ⟨sc, _, h1, h2, _⟩
    · rw [h1, h2]
      exact hinv
    · rw [h1, h2, List.sum_append, List.sum_cons, List.sum_nil, hinv]
      ring
  | next =>
    unfold advance
    rw [loadNewRound_totalScore, loadNewRound_roundScores]
    exact hinv

lemma reachable_sum_invariant {s : GameState} (h : Reachable s) :
    s.totalScore = s.roundScores.sum := by
  induction h with
  | init => rfl
  | step _ hstep ih => exact step_sum_invariant hstep ih

lemma advance_gameOver (s : GameState) (h : 4 ≤ s.currentRound) :
    isGameOver (advance s) := by
  have hc : locations.length ≤ s.currentRound + 1 := by
    rw [locations_length]
    omega
  unfold advance loadNewRound
  rw [if_pos (show locations.length ≤ s.currentRound + 1 from hc)]
  exact ⟨hc, rfl, rfl⟩

lemma advance_five_gameOver : isGameOver (advance^[5] initState) := by
  rw [show (5 : ℕ) = 4 + 1 from rfl, Function.iterate_succ_apply']
  apply advance_gameOver
  rw [iterate_advance_currentRound, initState_currentRound]

lemma advance_lt_five_not_gameOver (k : ℕ) (hk : k < 5) :
    ¬ isGameOver (advance^[k] initState) := by
  intro hgo
  have hcr : (advance^[k] initState).currentRound = k := by
    rw [iterate_advance_currentRound, initState_currentRound]
    omega
  have h1 := hgo.1
  rw [locations_length, hcr] at h1
  omega

end GeoExplorer

namespace Api

lemma parseFloat_12abc : parseFloat "12abc" = JSNumber.finite 12 := by
  have h : parseFloat "12abc" = JSNumber.finite
      (((digitsToNat ['1', '2'] : ℚ) + (digitsToNat ([] : List Char) : ℚ) / (10 : ℚ) ^ (0 : ℕ)) *
        (10 : ℚ) ^ (0 : ℤ)) := rfl
  have hd1 : digitsToNat ['1', '2'] = 12 := by decide
  have hd0 : digitsToNat ([] : List Char) = 0 := by decide
  rw [h, hd1, hd0]
  norm_num

lemma parseFloat_infinity : parseFloat "Infinity" = JSNumber.posInf := by decide

lemma validateRequest_sample :
    validateRequest ⟨some "12abc", some "Infinity", some "TOKEN"⟩ =
      Except.ok (JSNumber.finite 12, JSNumber.posInf) := by
  have e1 : ("TOKEN".isEmpty : Bool) = false := by decide
  have e2 : ("12abc".isEmpty : Bool) = false := by decide
  have e3 : ("Infinity".isEmpty : Bool) = false := by decide
  simp [validateRequest, jsFalsyStr, parseFloat_12abc, parseFloat_infinity,
    JSNumber.isNaN, e1, e2, e3]

lemma validateRequest_missing_token (req : ApiRequest)
    (h : jsFalsyStr req.envAccessToken = true) :
    validateRequest req = .error ⟨500, .errorMsg "Mapillary access token not configured."⟩ := by
  unfold validateRequest
  rw [if_pos h]

lemma endpoint_of_validate_error (req : ApiRequest) (resp : ApiResponse)
    (h : validateRequest req = .error resp) (p : ProviderResult) :
    endpoint req p = resp := by
  unfold endpoint
  rw [h]

lemma validateRequest_bad_coords (req : ApiRequest)
    (htok : jsFalsyStr req.envAccessToken = false)
    (hbad : req.queryLat = none ∨ req.queryLon = none ∨
      (parseFloat ((req.queryLat).getD "")).isNaN = true ∨
      (parseFloat ((req.queryLon).getD "")).isNaN = true) :
    ∃ m : String, validateRequest req = .error ⟨400, .errorMsg m⟩ := by
  have h0 : ¬ (jsFalsyStr req.envAccessToken = true) := by
    rw [htok]
    simp
  by_cases hmiss : (jsFalsyStr req.queryLat || jsFalsyStr req.queryLon) = true
  · refine ⟨"Latitude and longitude are required.", ?_⟩
    unfold validateRequest
    rw [if_neg h0, if_pos hmiss]
  · have hl : jsFalsyStr req.queryLat = false := by
      rcases Bool.or_eq_false_iff.mp (Bool.not_eq_true _ |>.mp hmiss) with ⟨h1, _⟩
      exact h1
    have hr : jsFalsyStr req.queryLon = false := by
      rcases Bool.or_eq_false_iff.mp (Bool.not_eq_true _ |>.mp hmiss) with ⟨_, h2⟩
      exact h2
    have hnan : ((parseFloat ((req.queryLat).getD "")).isNaN ||
        (parseFloat ((req.queryLon).getD "")).isNaN) = true := by
      rcases hbad with h | h | h | h
      · rw [h] at hl
        simp [jsFalsyStr] at hl
      · rw [h] at hr
        simp [jsFalsyStr] at hr
      · rw [h]
        simp
      · rw [h]
        simp
    refine ⟨"Invalid latitude or longitude values.", ?_⟩
    unfold validateRequest
    rw [if_neg h0, if_neg hmiss]
    dsimp only
    rw [if_pos hnan]

end Api

open GeoExplorer Api

/-- C1 counterexample: the claim `calculateScore(0.25) == 5000` is false on
the code — the near branch tests the strict `distanceKm < 0.25`, so at
exactly 0.25 km the linear formula applies and the score is 4999. -/
theorem c1_counterexample : calculateScore 0.25 ≠ 5000 := by
  rw [calculateScore_quarter]
  decide

/-- C1 (amended): the near boundary is exclusive — at exactly
`distanceKm = 0.25` the guard `distanceKm < 0.25` fails, the linear
formula applies, and `calculateScore(0.25) = round(5000 − 0.25·2.5)
= 4999`, not the flat maximum 5000. -/
theorem c1_boundary_exclusive :
    ¬ ((0.25 : ℝ) < 0.25) ∧
    calculateScore 0.25 = max 0 (round ((5000 : ℝ) - 0.25 * 2.5)) ∧
    calculateScore 0.25 = 4999 := by
  refine ⟨by norm_num, ?_, calculateScore_quarter⟩
  unfold calculateScore
  rw [if_neg (by norm_num), if_neg (by norm_num)]

/-- C2: for every `distanceKm ≥ 0`, `calculateScore` equals the spec's
piecewise definition (5000 below 0.25 km, 0 above 2000 km, otherwise the
rounded linear formula clamped at 0); the result is an integer in
`[0, 5000]`; `calculateScore(1000) = 2500`; and `calculateScore(2000)`
goes through the linear branch (2000 > 2000 is false) and yields 0. -/
theorem c2_score_piecewise (distanceKm : ℝ) (hd : 0 ≤ distanceKm) :
    calculateScore distanceKm = scoreSpec distanceKm ∧
    0 ≤ calculateScore distanceKm ∧ calculateScore distanceKm ≤ 5000 ∧
    calculateScore 1000 = 2500 ∧
    ¬ ((2000 : ℝ) > 2000) ∧
    calculateScore 2000 = max 0 (round ((5000 : ℝ) - 2000 * 2.5)) ∧
    calculateScore 2000 = 0 :=
  ⟨rfl, calculateScore_nonneg distanceKm, calculateScore_le_5000 distanceKm,
   calculateScore_1000, by norm_num, calculateScore_2000_linear, calculateScore_2000⟩

/-- C2 witness: the theorem instantiated at `distanceKm = 1000`. -/
theorem c2_score_piecewise_witness :
    (0 : ℝ) ≤ 1000 ∧
    (calculateScore 1000 = scoreSpec 1000 ∧
     0 ≤ calculateScore 1000 ∧ calculateScore 1000 ≤ 5000 ∧
     calculateScore 1000 = 2500 ∧
     ¬ ((2000 : ℝ) > 2000) ∧
     calculateScore 2000 = max 0 (round ((5000 : ℝ) - 2000 * 2.5)) ∧
     calculateScore 2000 = 0) :=
  ⟨by norm_num, c2_score_piecewise 1000 (by norm_num)⟩

/-- C3: `haversineDistance` computes the claim's formula `R * c` with
`R = 6371`, `a = sin²(dLat/2) + cos lat1 · cos lat2 · sin²(dLon/2)` and
`c = 2·atan2(√a, √(1−a))` (degrees converted to radians), and in
particular gives 0 for two equal points and `R·π/2` for a quarter great
circle.  This is the intended semantics of the source; the shipped
JavaScript never executes it because of the duplicated `const lon1`
declaration (see `haversineDistance`'s doc comment). -/
theorem c3_haversine_formula :
    (∀ c1 c2 : ℝ × ℝ, haversineDistance c1 c2 = haversineSpec c1 c2) ∧
    haversineDistance (0, 0) (0, 0) = 0 ∧
    haversineDistance (0, 0) (0, 90) = 6371 * (Real.pi / 2) :=
  ⟨haversineDistance_eq_spec, haversineDistance_same_point, haversineDistance_quarter_circle⟩

/-- C4: from the freshly loaded game, exactly five "Next Round" advances
reach the game-over configuration (and fewer than five never do); in every
reachable state `totalScore` is the sum of the round scores recorded so
far; and no in-game event ever decreases `totalScore`. -/
theorem c4_round_progression :
    isGameOver (advance^[5] initState) ∧
    (∀ k : ℕ, k < 5 → ¬ isGameOver (advance^[k] initState)) ∧
    (∀ s : GameState, Reachable s → s.totalScore = s.roundScores.sum) ∧
    (∀ s s' : GameState, Step s s' → s.totalScore ≤ s'.totalScore) :=
  ⟨advance_five_gameOver, advance_lt_five_not_gameOver,
   fun _ h => reachable_sum_invariant h, fun _ _ h => step_totalScore_mono h⟩

/-- C4 witness: the quantified parts instantiated at `k = 2`, at the
initial state, and at a submit step from the initial state. -/
theorem c4_round_progression_witness :
    ((2 : ℕ) < 5 ∧ ¬ isGameOver (advance^[2] initState)) ∧
    (Reachable initState ∧ initState.totalScore = initState.roundScores.sum) ∧
    initState.totalScore ≤ (submitGuess initState).totalScore :=
  ⟨⟨by norm_num, c4_round_progression.2.1 2 (by norm_num)⟩,
   ⟨Reachable.init, c4_round_progression.2.2.1 initState Reachable.init⟩,
   c4_round_progression.2.2.2 initState (submitGuess initState) (Step.submit initState)⟩

/-- C5: clicking "Submit Guess" with no guess marker placed only raises the
alert (`NoGuessError`) and leaves the whole game state unchanged — in
particular `totalScore`, `currentRound` and the recorded round scores. -/
theorem c5_submit_without_guess_noop (s : GameState) (h : s.guessMarker = none) :
    submitGuess s = s ∧
    (submitGuess s).totalScore = s.totalScore ∧
    (submitGuess s).currentRound = s.currentRound ∧
    (submitGuess s).roundScores = s.roundScores := by
  have he : submitGuess s = s := by
    unfold submitGuess
    rw [h]
  exact ⟨he, by rw [he], by rw [he], by rw [he]⟩

/-- C5 witness: the theorem at the initial state, whose guess marker is
`none`. -/
theorem c5_submit_without_guess_noop_witness :
    initState.guessMarker = none ∧
    (submitGuess initState = initState ∧
     (submitGuess initState).totalScore = initState.totalScore ∧
     (submitGuess initState).currentRound = initState.currentRound ∧
     (submitGuess initState).roundScores = initState.roundScores) :=
  ⟨rfl, c5_submit_without_guess_noop initState rfl⟩

/-- C6: on submission, the stored Mapillary `[lon, lat]` pair is reordered
to `[lat, lon]` before the distance is computed: the score added to
`totalScore` is `calculateScore` of
`haversineDistance [guessLat, guessLon] [coordinates[1], coordinates[0]]`,
and the actual-location marker is placed at the reordered pair. -/
theorem c6_coordinates_reordered (s : GameState) (g : ℝ × ℝ)
    (locData : LocationData) (coords : ℝ × ℝ)
    (h1 : s.guessMarker = some g) (h2 : s.currentLocationData = some locData)
    (h3 : locData.coordinates = some coords) :
    (submitGuess s).totalScore =
      s.totalScore + calculateScore (haversineDistance (g.1, g.2) (coords.2, coords.1)) ∧
    (submitGuess s).actualLocationMarker = some (coords.2, coords.1) := by
  unfold submitGuess
  rw [h1, h2]
  dsimp only
  rw [h3]
  exact ⟨rfl, rfl⟩

/-- C6 witness: the theorem at a state holding the guess `(1, 2)` and the
provider-reported `[lon, lat]` pair `(3, 4)`. -/
theorem c6_coordinates_reordered_witness :
    sampleSubmitState.guessMarker = some ((1 : ℝ), (2 : ℝ)) ∧
    sampleSubmitState.currentLocationData =
      some ⟨"Test", "img", some ((3 : ℝ), (4 : ℝ)), none⟩ ∧
    ((submitGuess sampleSubmitState).totalScore =
        sampleSubmitState.totalScore +
          calculateScore (haversineDistance ((1 : ℝ), (2 : ℝ)) ((4 : ℝ), (3 : ℝ))) ∧
      (submitGuess sampleSubmitState).actualLocationMarker = some ((4 : ℝ), (3 : ℝ))) :=
  ⟨rfl, rfl,
   c6_coordinates_reordered sampleSubmitState (1, 2)
     ⟨"Test", "img", some (3, 4), none⟩ (3, 4) rfl rfl rfl⟩

/-- C7: with the provider credential configured, a request whose `lat` or
`lon` is missing or fails numeric validation (`isNaN ∘ parseFloat`) is
answered 400 with an `{ error }` body before the provider fetch is reached
(`validateRequest` returning `Except.error` is the early return). -/
theorem c7_invalid_coords_400 (req : ApiRequest)
    (htok : jsFalsyStr req.envAccessToken = false)
    (hbad : req.queryLat = none ∨ req.queryLon = none ∨
      (parseFloat ((req.queryLat).getD "")).isNaN = true ∨
      (parseFloat ((req.queryLon).getD "")).isNaN = true) :
    ∃ m : String, validateRequest req = .error ⟨400, .errorMsg m⟩ ∧
      ∀ p : ProviderResult, endpoint req p = ⟨400, .errorMsg m⟩ := by
  obtain ⟨m, hm⟩ := validateRequest_bad_coords req htok hbad
  exact ⟨m, hm, fun p => endpoint_of_validate_error req _ hm p⟩

/-- C7 witness: the theorem at a request with a configured token, a
non-numeric latitude `"abc"` and a numeric longitude. -/
theorem c7_invalid_coords_400_witness :
    jsFalsyStr (ApiRequest.mk (some "abc") (some "10") (some "TOKEN")).envAccessToken = false ∧
    (parseFloat (((ApiRequest.mk (some "abc") (some "10") (some "TOKEN")).queryLat).getD "")).isNaN
      = true ∧
    (∃ m : String,
      validateRequest ⟨some "abc", some "10", some "TOKEN"⟩ = .error ⟨400, .errorMsg m⟩ ∧
      ∀ p : ProviderResult,
        endpoint ⟨some "abc", some "10", some "TOKEN"⟩ p = ⟨400, .errorMsg m⟩) :=
  ⟨by decide, by decide,
   c7_invalid_coords_400 ⟨some "abc", some "10", some "TOKEN"⟩ (by decide)
     (Or.inr (Or.inr (Or.inl (by decide))))⟩

/-- C8: with the `MAPILLARY_ACCESS_TOKEN` credential absent (or empty),
every request is answered 500 with the configuration error, whatever the
coordinates are — the credential check runs before coordinate
validation. -/
theorem c8_missing_token_500 (req : ApiRequest)
    (h : jsFalsyStr req.envAccessToken = true) :
    validateRequest req = .error ⟨500, .errorMsg "Mapillary access token not configured."⟩ ∧
    ∀ p : ProviderResult,
      endpoint req p = ⟨500, .errorMsg "Mapillary access token not configured."⟩ :=
  ⟨validateRequest_missing_token req h,
   fun p => endpoint_of_validate_error req _ (validateRequest_missing_token req h) p⟩

/-- C8 witness: the theorem at a request with perfectly valid coordinates
and no token. -/
theorem c8_missing_token_500_witness :
    jsFalsyStr (ApiRequest.mk (some "40.7128") (some "-74.006") none).envAccessToken = true ∧
    (validateRequest ⟨some "40.7128", some "-74.006", none⟩ =
        .error ⟨500, .errorMsg "Mapillary access token not configured."⟩ ∧
      ∀ p : ProviderResult,
        endpoint ⟨some "40.7128", some "-74.006", none⟩ p =
          ⟨500, .errorMsg "Mapillary access token not configured."⟩) :=
  ⟨rfl, c8_missing_token_500 ⟨some "40.7128", some "-74.006", none⟩ rfl⟩

/-- C9: a 200 response need not carry a complete payload — when the
selected image has no `computed_geometry` the endpoint still answers 200
with `coordinates = null`, and when both thumbnail URLs are missing the
`imageUrl` key is absent. -/
theorem c9_incomplete_success (req : ApiRequest) (v : JSNumber × JSNumber)
    (image : MapillaryImage) (rest : List MapillaryImage)
    (hv : validateRequest req = .ok v)
    (hcg : image.computed_geometry = none)
    (ht1 : image.thumb_original_url = none)
    (ht2 : image.thumb_1024_url = none) :
    endpoint req (.ok (some (image :: rest))) =
      ⟨200, .success image.id none none image.compass_angle⟩ := by
  unfold endpoint
  rw [hv]
  simp [jsOrStr, jsFalsyStr, hcg, ht1, ht2]

/-- C9 witness: the theorem at a validated request and an image record
with no geometry and no thumbnails. -/
theorem c9_incomplete_success_witness :
    validateRequest ⟨some "12abc", some "Infinity", some "TOKEN"⟩ =
      Except.ok (JSNumber.finite 12, JSNumber.posInf) ∧
    endpoint ⟨some "12abc", some "Infinity", some "TOKEN"⟩
        (.ok (some [MapillaryImage.mk "m1" none none none (some 90)])) =
      ⟨200, .success "m1" none none (some 90)⟩ :=
  ⟨validateRequest_sample,
   c9_incomplete_success ⟨some "12abc", some "Infinity", some "TOKEN"⟩
     (JSNumber.finite 12, JSNumber.posInf) (MapillaryImage.mk "m1" none none none (some 90)) []
     validateRequest_sample rfl rfl rfl⟩

/-- C10: validation only rejects `NaN` results of `parseFloat`, so query
strings that are not decimal numerals can pass: `"12abc"` parses to 12 and
`"Infinity"` to positive infinity, and a request carrying them reaches the
provider query with those parsed values. -/
theorem c10_parsefloat_lenient :
    parseFloat "12abc" = JSNumber.finite 12 ∧
    parseFloat "Infinity" = JSNumber.posInf ∧
    validateRequest ⟨some "12abc", some "Infinity", some "TOKEN"⟩ =
      Except.ok (JSNumber.finite 12, JSNumber.posInf) :=
  ⟨parseFloat_12abc, parseFloat_infinity, validateRequest_sample⟩
